import Mathlib

/-!
Shallow embedding of the `telethon-events` repository (files
`events/events.py` and `events/utils.py`) and proofs about its
event-builder filters, event actions and the file-id packer.

Conventions used throughout:
* Python `bytes` values are modelled as `List Nat` (one entry per byte);
  `str` values used as byte payloads are UTF-8 encoded first (`utf8`
  below covers the ASCII strings appearing here, one byte per char).
* Python `Optional[...]` arguments are `Option ...`; Python truthiness
  of such values is made explicit by the `truthy*` helpers.
* The global spam cache (`cachebox.TTLCache(500, 0.6)`) and the current
  time are threaded explicitly: a function that reads the clock takes a
  `now : Rat` argument and the cache state is passed in and returned.
* Compiled regular expressions are abstracted as predicates
  `String → Bool` (the `re` module is external to the repository); a
  user-supplied `func` callback is likewise an `Option (Event → Bool)`.
* Code paths that raise an exception at run time (Python `ValueError`
  on an empty split separator, `IndexError` on `[0]` of an empty list,
  `TypeError` on `bytes.count(None)`) are modelled with `Option`:
  `none` marks the raising path.
-/

/-- UTF-8 bytes of an ASCII string (one byte per character). -/
def utf8 (s : String) : List Nat :=
  s.toList.map Char.toNat

/-- Python truthiness of an `Optional[bool]`: only `True` is truthy. -/
def truthyOptBool (o : Option Bool) : Bool :=
  o.getD false

/-- Python truthiness of an `Optional[bytes]`: `None` and `b""` are falsy. -/
def truthyOptBytes (o : Option (List Nat)) : Bool :=
  match o with
  | none => false
  | some l => !l.isEmpty

/-- Python truthiness of an `Optional[int]`: `None` and `0` are falsy. -/
def truthyOptInt (o : Option Int) : Bool :=
  match o with
  | none => false
  | some n => n != 0

/-- ASCII whitespace as used by Python's `bytes.split(None)`. -/
def isPyWhitespace (b : Nat) : Bool :=
  b == 9 || b == 10 || b == 11 || b == 12 || b == 13 || b == 32

/-- Does `pat` occur at the head of `l`? (`bytes.startswith` at position 0). -/
def bytesStartsWith : List Nat → List Nat → Bool
  | [], _ => true
  | _ :: _, [] => false
  | p :: ps, x :: xs => p == x && bytesStartsWith ps xs

/-- Index of the first occurrence of (nonempty) `pat` in `l`, if any. -/
def findSub (pat : List Nat) : List Nat → Option Nat
  | [] => if pat.isEmpty then some 0 else none
  | x :: xs =>
    if bytesStartsWith pat (x :: xs) then some 0
    else (findSub pat xs).map (· + 1)

/-- Python `bytes.count(sub)` for a nonempty `sub`: number of
non-overlapping occurrences, scanning left to right. Structured with a
fuel argument (the list length bounds the number of occurrences). -/
def bcountFuel (pat : List Nat) : Nat → List Nat → Nat
  | 0, _ => 0
  | fuel + 1, l =>
    match findSub pat l with
    | none => 0
    | some i => 1 + bcountFuel pat fuel (l.drop (i + pat.length))

/-- Python `bytes.count(sub)` for nonempty `sub`. -/
def bcount (pat l : List Nat) : Nat :=
  bcountFuel pat (l.length + 1) l

/-- Python `data.count(self.split_char)` where `self.split_char` is an
`Optional[bytes]`: counting with a `None` pattern raises `TypeError`
(modelled `none`); an empty pattern counts `len + 1` occurrences. -/
def bcountPy : Option (List Nat) → List Nat → Option Nat
  | none, _ => none
  | some [], l => some (l.length + 1)
  | some (p :: ps), l => some (bcount (p :: ps) l)

/-- Python `bytes.split(sep, maxsplit)` for a nonempty separator `sep`. -/
def bsplitSep (sep : List Nat) : Nat → List Nat → List (List Nat)
  | 0, l => [l]
  | maxsplit + 1, l =>
    match findSub sep l with
    | none => [l]
    | some i => l.take i :: bsplitSep sep maxsplit (l.drop (i + sep.length))

/-- Python `bytes.split(None, maxsplit)`: split on runs of ASCII
whitespace, discarding leading whitespace; once `maxsplit` splits were
made the rest (leading whitespace stripped) is the final chunk.
Structured with a fuel argument bounded by the list length. -/
def wsSplitFuel : Nat → Nat → List Nat → List (List Nat)
  | 0, _, _ => []
  | fuel + 1, maxsplit, l =>
    match l.dropWhile isPyWhitespace with
    | [] => []
    | x :: xs =>
      if maxsplit = 0 then [x :: xs]
      else
        (x :: xs).takeWhile (fun b => !isPyWhitespace b) ::
          wsSplitFuel fuel (maxsplit - 1)
            ((x :: xs).dropWhile (fun b => !isPyWhitespace b))

/-- Python `bytes.split(None, maxsplit)`. -/
def wsSplit (maxsplit : Nat) (l : List Nat) : List (List Nat) :=
  wsSplitFuel (l.length + 1) maxsplit l

/-- Python `data.split(self.split_char, maxsplit)` with
`self.split_char : Optional[bytes]`: a `None` separator splits on
whitespace, an empty separator raises `ValueError` (modelled `none`). -/
def bsplitPy (maxsplit : Nat) : Option (List Nat) → List Nat → Option (List (List Nat))
  | none, l => some (wsSplit maxsplit l)
  | some [], _ => none
  | some (s :: ss), l => some (bsplitSep (s :: ss) maxsplit l)

/-- Python `str.split(sep)` (full split) on a single-character
separator, over a character list. The result is always nonempty. -/
def splitChar (sep : Char) : List Char → List (List Char)
  | [] => [[]]
  | c :: rest =>
    let r := splitChar sep rest
    if c = sep then [] :: r
    else (c :: r.headD []) :: r.drop 1

/-- Python `s.replace("/", "", 1)` over a character list: remove the
first occurrence of `'/'`, wherever it appears. -/
def replaceSlashOnce : List Char → List Char
  | [] => []
  | c :: rest => if c = '/' then rest else c :: replaceSlashOnce rest

/-- Python `s[a:b]` (slice with clamping) over a character list. -/
def pySlice (l : List Char) (a b : Nat) : List Char :=
  (l.take b).drop a

/-! ## Spam guard

`events.py` lines 16-24:

```python
_spam_cache = cachebox.TTLCache(500, 0.6)

def is_spam(id: int) -> bool:
    if _spam_cache.get(id, 0):
        return True
    _spam_cache[id] = 1
    return False
```
-/

/-- Modelled from the spec: `cachebox.TTLCache(500, 0.6)` (the
`cachebox` library is external to the repository). Entries carry their
expiry instant; a lookup only sees unexpired entries, and an insertion
stores the value with expiry `now + 0.6` seconds, dropping any expired
entries and keeping at most the 500 most-recently-inserted ids. -/
structure TTLCache where
  entries : List (Int × Rat)
  deriving Repr, DecidableEq

/-- Time-to-live of the spam cache, in seconds. -/
def spamTTL : Rat := 3 / 5

/-- Modelled from the spec: `TTLCache.get(id, 0)` — the stored value
(always `1` here) if an unexpired entry for `id` exists, else the
default `0`. -/
def cacheGet (c : TTLCache) (id : Int) (now : Rat) : Nat :=
  match c.entries.find? (fun e => e.1 == id) with
  | some e => if now < e.2 then 1 else 0
  | none => 0

/-- Modelled from the spec: `cache[id] = 1` — insert `id` with expiry
`now + 0.6`, dropping expired entries and any previous entry for `id`,
capacity-bounded to the 500 most recently inserted ids. -/
def cacheSet (c : TTLCache) (id : Int) (now : Rat) : TTLCache :=
  ⟨((id, now + spamTTL) ::
      c.entries.filter (fun e => e.1 != id && decide (now < e.2))).take 500⟩

/-- `is_spam` (`events.py` lines 19-24), with the global cache and the
clock made explicit: returns the flag and the updated cache. -/
def is_spam (id : Int) (now : Rat) (c : TTLCache) : Bool × TTLCache :=
  if cacheGet c id now != 0 then (true, c)
  else (false, cacheSet c id now)

/-! ## Abstract event builder

`events.py` lines 39-62. `resolved` starts out `False` and is set by
`resolve`; `filter` rejects (returns the falsy `None`) until resolved,
then applies the optional user predicate `func`, defaulting to accept.
-/

/-- `EventBuilder.filter` (`events.py` lines 55-62), generic in the
event type; the Python falsy `None` return is modelled as `false`. -/
def EventBuilder.filter {E : Type} (resolved : Bool) (func : Option (E → Bool))
    (e : E) : Bool :=
  if !resolved then false
  else
    match func with
    | some f => f e
    | none => true

/-! ## Message and event model

The telethon record types consumed by the filters. A `Message` carries
the direction flag `out`, the chat-type flags (derived from the
message's peer; the event's own `is_private`/`is_group`/`is_channel`
accessors inherited from `EventCommon` are derived from the same peer,
so they are modelled as accessors of the same fields), the text, the
sender id and the entity list. -/

/-- A message text entity: either `types.MessageEntityBotCommand` or
any other entity kind, with its `offset`/`length` span. -/
inductive MessageEntity where
  | botCommand (offset : Nat) (length : Nat)
  | other (offset : Nat) (length : Nat)
  deriving Repr, DecidableEq

/-- The `offset` field of an entity. -/
def MessageEntity.offset : MessageEntity → Nat
  | .botCommand o _ => o
  | .other o _ => o

/-- The `length` field of an entity. -/
def MessageEntity.length : MessageEntity → Nat
  | .botCommand _ l => l
  | .other _ l => l

/-- Is the entity a `types.MessageEntityBotCommand`? -/
def MessageEntity.isBotCommand : MessageEntity → Bool
  | .botCommand _ _ => true
  | .other _ _ => false

/-- The parts of a `types.Message` read by the filters. A Python text
of `None` is modelled as the empty string (`NewMessage.filter` itself
collapses the two via `message or ""`). -/
structure Message where
  out : Bool
  is_private : Bool
  is_group : Bool
  is_channel : Bool
  message : String
  sender_id : Int
  entities : List MessageEntity

/-- A `NewMessage.Event` (also used for `Command`): the wrapped message
plus the `event._client.me.username` value reachable through the
client back-reference (`None` when the account has no username). -/
structure NMEvent where
  message : Message
  me_username : Option String

/-- `event.is_private` (`EventCommon`, chat-peer derived). -/
def NMEvent.is_private (e : NMEvent) : Bool := e.message.is_private

/-- `event.is_group` (`EventCommon`, chat-peer derived). -/
def NMEvent.is_group (e : NMEvent) : Bool := e.message.is_group

/-- `event.is_channel` (`EventCommon`, chat-peer derived). -/
def NMEvent.is_channel (e : NMEvent) : Bool := e.message.is_channel

/-! ## NewMessage builder

`events.py` lines 76-218. -/

/-- The state of a `NewMessage` builder after `__init__`:
`resolved`/`func` from `EventBuilder.__init__` plus the normalized
configuration fields. `private'` models the Python attribute `private`
(a Lean keyword). -/
structure NewMessageBuilder where
  resolved : Bool
  func : Option (NMEvent → Bool)
  pattern : Option (String → Bool)
  incoming : Option Bool
  outgoing : Option Bool
  private' : Bool
  public : Bool

/-- `NewMessage.__init__` (`events.py` lines 77-146). The `pattern`
argument is already the compiled predicate (`re.compile` of a string
and acceptance of a precompiled pattern are collapsed into
`Option (String → Bool)`, so the `TypeError` branch for other types
has no counterpart). Raising `ValueError` is `Except.error`. -/
def NewMessage.init (pattern : Option (String → Bool))
    (outgoing incoming : Option Bool) (func : Option (NMEvent → Bool))
    (private' public : Bool) : Except String NewMessageBuilder :=
  if private' && public then
    .error "What are you doing? a message can't be in both of private and public chats!"
  else if truthyOptBool incoming && truthyOptBool outgoing then
    .ok ⟨false, func, pattern, none, none, private', public⟩
  else if incoming.isSome && outgoing.isNone then
    .ok ⟨false, func, pattern, incoming, incoming.map (fun b => !b), private', public⟩
  else if outgoing.isSome && incoming.isNone then
    .ok ⟨false, func, pattern, outgoing.map (fun b => !b), outgoing, private', public⟩
  else if incoming == some false && outgoing == some false then
    .error "Don't create an event handler if you don't want neither incoming nor outgoing!"
  else
    .ok ⟨false, func, pattern, incoming, outgoing, private', public⟩

/-- `EventBuilder.resolve` (`events.py` lines 49-53) applied to a
`NewMessage` builder: mark it resolved (idempotent). -/
def NewMessageBuilder.resolve (b : NewMessageBuilder) : NewMessageBuilder :=
  { b with resolved := true }

/-- `NewMessage.filter` (`events.py` lines 197-218). Checks run in
source order, each short-circuiting on rejection; the spam-guard step
mutates the cache, so the updated cache is returned alongside the
verdict. -/
def NewMessage.filter (b : NewMessageBuilder) (e : NMEvent) (now : Rat)
    (cache : TTLCache) : Bool × TTLCache :=
  if b.private' && !e.is_private then (false, cache)
  else if b.public && !(e.is_group || e.is_channel) then (false, cache)
  else if truthyOptBool b.incoming && e.message.out then (false, cache)
  else if truthyOptBool b.outgoing && !e.message.out then (false, cache)
  else if (match b.pattern with
           | some p => !p e.message.message
           | none => false) then (false, cache)
  else
    let r := is_spam e.message.sender_id now cache
    if r.1 then (false, r.2)
    else (EventBuilder.filter b.resolved b.func e, r.2)

/-! ## Command builder

`events.py` lines 245-335. -/

/-- The `command` argument: a literal string or a list of strings. -/
inductive CommandArg where
  | str (s : String)
  | list (l : List String)

/-- The state of a `Command` builder after `__init__`: the stored
command list plus the `NewMessage` fields (its `pattern` is always
`None`, so it is omitted). -/
structure CommandBuilder where
  resolved : Bool
  func : Option (NMEvent → Bool)
  command : List (List Char)
  incoming : Option Bool
  outgoing : Option Bool
  private' : Bool
  public : Bool

/-- `Command.__init__` (`events.py` lines 246-298): store
`command.replace("/", "", 1)` (for each element, when a list), then
delegate to `NewMessage.__init__` with `pattern=None`. -/
def Command.init (command : CommandArg) (outgoing incoming : Option Bool)
    (func : Option (NMEvent → Bool)) (private' public : Bool) :
    Except String CommandBuilder :=
  let cmds : List (List Char) :=
    match command with
    | .str s => [replaceSlashOnce s.toList]
    | .list l => l.map (fun i => replaceSlashOnce i.toList)
  match NewMessage.init none outgoing incoming func private' public with
  | .error e => .error e
  | .ok b => .ok ⟨b.resolved, b.func, cmds, b.incoming, b.outgoing, b.private', b.public⟩

/-- `EventBuilder.resolve` applied to a `Command` builder. -/
def CommandBuilder.resolve (b : CommandBuilder) : CommandBuilder :=
  { b with resolved := true }

/-- `Command.filter` (`events.py` lines 300-335). Visibility and
direction checks (note: read off `event.message` here, unlike
`NewMessage.filter` which reads the event's own accessors — both
derive from the same peer), then the bot-command entity check, the
command-token extraction `message[offset+1 : offset+length]` split on
`'@'`, membership of the bare command, the username-suffix check, the
spam guard, and finally `EventBuilder.filter` (deliberately bypassing
`NewMessage.filter`). -/
def Command.filter (b : CommandBuilder) (e : NMEvent) (now : Rat)
    (cache : TTLCache) : Bool × TTLCache :=
  if b.private' && !e.message.is_private then (false, cache)
  else if b.public && !(e.message.is_group || e.message.is_channel) then (false, cache)
  else if truthyOptBool b.incoming && e.message.out then (false, cache)
  else if truthyOptBool b.outgoing && !e.message.out then (false, cache)
  else
    match e.message.entities with
    | [] => (false, cache)
    | ent :: _ =>
      if !ent.isBotCommand || ent.offset != 0 then (false, cache)
      else
        let tok := pySlice e.message.message.toList (ent.offset + 1)
          (ent.offset + ent.length)
        let parts := splitChar '@' tok
        if !b.command.contains (parts.headD []) then (false, cache)
        else if !(parts.drop 1).isEmpty &&
            !(e.me_username == some (String.mk ((parts.drop 1).headD []))) then
          (false, cache)
        else
          let r := is_spam e.message.sender_id now cache
          if r.1 then (false, r.2)
          else (EventBuilder.filter b.resolved b.func e, r.2)

/-! ## CallbackQuery builder and event

`events.py` lines 338-636. -/

/-- The `split` argument of `CallbackQuery.__init__`: `None`, a single
separator (`str`/`bytes`, already UTF-8 encoded), or a
`(separator, expected-occurrence-count)` tuple. -/
inductive SplitArg where
  | noSplit
  | sep (s : List Nat)
  | pair (s : List Nat) (n : Int)

/-- `types.InputBotInlineMessageID` / `InputBotInlineMessageID64`: the
inline-message identifier carried by inline-origin callbacks. -/
inductive InlineMessageId where
  | id32 (dc_id : Int) (idv : Int) (access_hash : Int)
  | id64 (dc_id : Int) (owner_id : Int) (idv : Int) (access_hash : Int)
  deriving Repr, DecidableEq

/-- The runtime value of `query.msg_id`: an `int` for
`UpdateBotCallbackQuery`, an inline-message identifier for
`UpdateInlineBotCallbackQuery`. -/
inductive MsgIdValue where
  | intId (id : Int)
  | inline (m : InlineMessageId)
  deriving Repr, DecidableEq

/-- The raw callback update: `types.UpdateBotCallbackQuery` or
`types.UpdateInlineBotCallbackQuery` (fields read by this module). -/
inductive CBQuery where
  | botCallback (query_id user_id : Int) (msg_id : Int) (chat_instance : Int)
      (data : List Nat)
  | inlineBotCallback (query_id user_id : Int) (msg_id : InlineMessageId)
      (chat_instance : Int) (data : List Nat)
  deriving Repr, DecidableEq

/-- `query.data`. -/
def CBQuery.data : CBQuery → List Nat
  | .botCallback _ _ _ _ d => d
  | .inlineBotCallback _ _ _ _ d => d

/-- `query.user_id`. -/
def CBQuery.user_id : CBQuery → Int
  | .botCallback _ u _ _ _ => u
  | .inlineBotCallback _ u _ _ _ => u

/-- `query.query_id`. -/
def CBQuery.query_id : CBQuery → Int
  | .botCallback q _ _ _ _ => q
  | .inlineBotCallback q _ _ _ _ => q

/-- `query.msg_id` as a runtime value. -/
def CBQuery.msg_id : CBQuery → MsgIdValue
  | .botCallback _ _ m _ _ => .intId m
  | .inlineBotCallback _ _ m _ _ => .inline m

/-- A `CallbackQuery.Event`: the wrapped raw query. -/
structure CBEvent where
  query : CBQuery

/-- User predicate over callback events (the `func` argument). -/
def CBEventPred := CBEvent → Bool

/-- The state of a `CallbackQuery` builder after `__init__`. -/
structure CallbackQueryBuilder where
  resolved : Bool
  func : Option CBEventPred
  data : Option (List Nat)
  split_char : Option (List Nat)
  split_char_count : Option Int

/-- `CallbackQuery.__init__` (`events.py` lines 339-396): encode `data`
to bytes (inputs are modelled already encoded), then set `split_char`
and `split_char_count` from the `split` argument (a tuple populates
both, anything else only `split_char`). -/
def CallbackQuery.init (data : Option (List Nat)) (split : SplitArg)
    (func : Option CBEventPred) : CallbackQueryBuilder :=
  match split with
  | .noSplit => ⟨false, func, data, none, none⟩
  | .sep s => ⟨false, func, data, some s, none⟩
  | .pair s n => ⟨false, func, data, some s, some n⟩

/-- `EventBuilder.resolve` applied to a `CallbackQuery` builder. -/
def CallbackQueryBuilder.resolve (b : CallbackQueryBuilder) : CallbackQueryBuilder :=
  { b with resolved := true }

/-- `CallbackQuery.filter` (`events.py` lines 409-428). The data check
mirrors the source's `if (not self.split_char) and self.data !=
event.query.data: ... else: ...` structure — in particular, when no
split is configured but the payloads are equal, control still reaches
the `else` branch and calls `data.split(None, 2)`. The result is
`none` when that code path raises (see `bsplitPy`/`bcountPy`),
otherwise `some` of the verdict and the updated spam cache. -/
def CallbackQuery.filter (b : CallbackQueryBuilder) (e : CBEvent) (now : Rat)
    (cache : TTLCache) : Option (Bool × TTLCache) :=
  let afterData : Option Bool :=
    match b.data with
    | none => some true
    | some d =>
      if d.isEmpty then some true
      else if !truthyOptBytes b.split_char && d != e.query.data then some false
      else
        let countCheck : Option Bool :=
          if truthyOptInt b.split_char_count then
            match bcountPy b.split_char e.query.data with
            | none => none
            | some cnt => some ((cnt : Int) != b.split_char_count.getD 0)
          else some false
        match countCheck with
        | none => none
        | some true => some false
        | some false =>
          match bsplitPy 2 b.split_char e.query.data with
          | none => none
          | some [] => none
          | some (p0 :: _) => some (d == p0)
  match afterData with
  | none => none
  | some false => some (false, cache)
  | some true =>
    let r := is_spam e.query.user_id now cache
    if r.1 then some (false, r.2)
    else some (EventBuilder.filter b.resolved b.func e, r.2)

/-- `CallbackQuery.Event.via_inline` (`events.py` lines 545-558):
whether the query is a `types.UpdateInlineBotCallbackQuery`. -/
def CBEvent.via_inline (e : CBEvent) : Bool :=
  match e.query with
  | .inlineBotCallback _ _ _ _ _ => true
  | .botCallback _ _ _ _ _ => false

/-- `CallbackQuery.Event.answer` (`events.py` lines 510-543), acting on
the event's `_answered` flag: returns the new flag value and whether a
`SetBotCallbackAnswerRequest` was issued to the client. -/
def CBEvent.answer (answered : Bool) : Bool × Bool :=
  if answered then (answered, false)
  else (true, true)

/-- The outcome of `CallbackQuery.Event.delete`: either the `TypeError`
raised for inline-message identifiers, or the issued
`delete_messages` request for the given message id. -/
inductive DeleteOutcome where
  | raised (msg : String)
  | requested (msg_id : Int)
  deriving Repr, DecidableEq

/-- The visible behaviour of `CallbackQuery.Event.delete`: the
fire-and-forget `answer` task it schedules first, and its outcome. -/
structure DeleteResult where
  answer_task_scheduled : Bool
  outcome : DeleteOutcome
  deriving Repr, DecidableEq

/-- `CallbackQuery.Event.delete` (`events.py` lines 613-636): schedule
an `answer` task, then branch on
`isinstance(self.query.msg_id, (InputBotInlineMessageID,
InputBotInlineMessageID64))` — raise `TypeError` for inline ids, else
issue `delete_messages` for `self.query.msg_id`. -/
def CBEvent.delete (e : CBEvent) : DeleteResult :=
  { answer_task_scheduled := true
    outcome :=
      match e.query.msg_id with
      | .inline _ =>
        .raised "Inline messages cannot be deleted as there is no API request available to do so"
      | .intId mid => .requested mid }

/-! ## InlineQuery event `answer`

`events.py` lines 735-837. Only the `_answered` flag logic matters for
the claims; the raw update's fields and the result list are carried
through. -/

/-- `InlineQuery.Event.answer` (`events.py` lines 735-837), acting on
the event's `_answered` flag: if `self._answered` is set, return
without a request; otherwise await all pending result entries
(concurrently, re-read in original order — modelled as the identity on
the already-evaluated list) and issue a `SetInlineBotResultsRequest`
with them. Note the source never assigns `self._answered = True`, so
the returned flag is the unchanged input flag on both paths. -/
def IQEvent.answer (answered : Bool) (results : List Nat) :
    Bool × Option (List Nat) :=
  if answered then (answered, none)
  else (answered, some results)

/-! ## File-ID packer

`events/utils.py`. The two telethon helpers it calls
(`_rle_encode` and `_encode_telegram_base64`) are external to the
repository and are modelled from the spec's description of the
encoding ("a length-prefixed run-length-encoded base64 scheme" whose
byte layout must match telethon's decoder). -/

/-- A `types.DocumentAttribute*` value, as far as the packer reads it:
audio (with its `voice` flag), video (with its `round_message` flag),
sticker, animated, or any other attribute kind. -/
inductive DocAttribute where
  | audio (voice : Bool)
  | video (round_message : Bool)
  | sticker
  | animated
  | otherAttr
  deriving Repr, DecidableEq

/-- A `types.PhotoSize*` list entry: a plain `PhotoSize`, a
`PhotoCachedSize`, or any other size variant (stripped, progressive,
empty, …). The packer only tests the variant, never reads fields. -/
inductive PhotoSizeVariant where
  | photoSize
  | photoCachedSize
  | otherSize
  deriving Repr, DecidableEq

/-- The inputs `pack_bot_file_id` distinguishes: `types.Document`,
`types.Photo`, the `MessageMedia*` containers wrapping an arbitrary
value (their `document`/`photo` field, with `Python None` as
`noneObj`), and every other input. -/
inductive TLObject where
  | document (dc_id : Int) (idv : Int) (access_hash : Int)
      (attributes : List DocAttribute)
  | photo (dc_id : Int) (idv : Int) (access_hash : Int)
      (sizes : List PhotoSizeVariant)
  | messageMediaDocument (doc : TLObject)
  | messageMediaPhoto (pho : TLObject)
  | noneObj
  | otherObj
  deriving Repr, DecidableEq

/-- Little-endian byte encoding of an integer into `w` bytes (the
value is taken modulo `2^(8*w)`, which agrees with `struct.pack` on
every in-range value, signed or unsigned). -/
def leBytes (w : Nat) (v : Int) : List Nat :=
  (List.range w).map (fun i => (v % (2 ^ (8 * w) : Nat)).toNat / 256 ^ i % 256)

/-- `struct.pack("<iiqqb", ...)`: two 32-bit ints, two 64-bit ints and
a byte, all little-endian. -/
def structPack_iiqqb (a b c d e : Int) : List Nat :=
  leBytes 4 a ++ leBytes 4 b ++ leBytes 8 c ++ leBytes 8 d ++ leBytes 1 e

/-- `struct.pack("<iiqqqqib", ...)`. -/
def structPack_iiqqqqib (a b c d e f g h : Int) : List Nat :=
  leBytes 4 a ++ leBytes 4 b ++ leBytes 8 c ++ leBytes 8 d ++ leBytes 8 e ++
    leBytes 8 f ++ leBytes 4 g ++ leBytes 1 h

/-- Modelled from the spec: telethon's `_rle_encode` — compress each
run of zero bytes into `0, run-length`, copying other bytes verbatim
(the run-length-encoding half of the identifier scheme). Tail-worker
carrying the current zero-run length. -/
def rleEncodeAux : Nat → List Nat → List Nat
  | count, [] => if count != 0 then [0, count] else []
  | count, b :: rest =>
    if b == 0 then rleEncodeAux (count + 1) rest
    else (if count != 0 then [0, count] else []) ++ b :: rleEncodeAux 0 rest

/-- Modelled from the spec: telethon's `_rle_encode`. -/
def rleEncode (l : List Nat) : List Nat :=
  rleEncodeAux 0 l

/-- The URL-safe base64 alphabet. -/
def b64alphabet : List Char :=
  "ABCDEFGHIJKLMNOPQRSTUVWXYZabcdefghijklmnopqrstuvwxyz0123456789-_".toList

/-- Character of the URL-safe base64 alphabet at a 6-bit index. -/
def b64char (n : Nat) : Char :=
  (b64alphabet.take (n + 1)).getLastD 'A'

/-- Modelled from the spec: telethon's `_encode_telegram_base64` —
URL-safe base64 without padding (`base64.urlsafe_b64encode(..).rstrip(b'=')`). -/
def encodeTelegramBase64 : List Nat → List Char
  | [] => []
  | [a] => [b64char (a / 4), b64char (a % 4 * 16)]
  | [a, b] => [b64char (a / 4), b64char (a % 4 * 16 + b / 16), b64char (b % 16 * 4)]
  | a :: b :: c :: rest =>
    b64char (a / 4) :: b64char (a % 4 * 16 + b / 16) ::
      b64char (b % 16 * 4 + c / 64) :: b64char (c % 64) ::
        encodeTelegramBase64 rest

/-- The document type-code loop of `pack_bot_file_id` (`utils.py`
lines 24-36): `file_type` starts at 5; the attributes are scanned in
order, non-matching kinds `continue`, the first matching kind sets the
code and `break`s. -/
def docFileTypeLoop (file_type : Int) : List DocAttribute → Int
  | [] => file_type
  | a :: rest =>
    match a with
    | .audio voice => if voice then 3 else 9
    | .video round_message => if round_message then 13 else 4
    | .sticker => 8
    | .animated => 10
    | .otherAttr => docFileTypeLoop file_type rest

/-- `isinstance(x, (types.PhotoSize, types.PhotoCachedSize))`: the
size-variant test of the photo branch. -/
def isThumbOrCached (x : PhotoSizeVariant) : Bool :=
  x == PhotoSizeVariant.photoSize || x == PhotoSizeVariant.photoCachedSize

/-- `pack_bot_file_id` (`utils.py` lines 9-71). -/
def pack_bot_file_id (file : TLObject) : Option (List Char) :=
  let file :=
    match file with
    | .messageMediaDocument d => d
    | .messageMediaPhoto p => p
    | f => f
  match file with
  | .document dc_id idv access_hash attributes =>
    some (encodeTelegramBase64 (rleEncode
      (structPack_iiqqb (docFileTypeLoop 5 attributes) dc_id idv access_hash 2)))
  | .photo dc_id idv access_hash sizes =>
    let size := sizes.reverse.find? isThumbOrCached
    match size with
    | none => none
    | some _ =>
      some (encodeTelegramBase64 (rleEncode
        (structPack_iiqqqqib 2 dc_id idv access_hash 0 0 0 2)))
  | _ => none

/-! ## Specification-side definitions

Definitions written from the claims' wording, to be compared with the
source-derived functions above. -/

/-- Spec wording: the segment of a payload before the first occurrence
of the separator `s` (the whole payload when `s` does not occur). -/
def segBeforeFirst (s l : List Nat) : List Nat :=
  match findSub s l with
  | some i => l.take i
  | none => l

/-- Spec wording: inputs `pack_bot_file_id` applies to — a document or
a photo (possibly inside a media container), the photo's size list
containing a plain-size or cached-size variant. -/
def packApplicable (f : TLObject) : Bool :=
  match (match f with
         | .messageMediaDocument d => d
         | .messageMediaPhoto p => p
         | f' => f') with
  | .document _ _ _ _ => true
  | .photo _ _ _ sizes => sizes.any isThumbOrCached
  | _ => false

/-- Spec wording: is the attribute one of the four kinds that
determine a document's type code? -/
def isClassifyingAttr : DocAttribute → Bool
  | .audio _ => true
  | .video _ => true
  | .sticker => true
  | .animated => true
  | .otherAttr => false

/-- Spec wording: the type code contributed by a classifying
attribute (audio gives 3 if voice else 9, video gives 13 if round
else 4, sticker 8, animated 10). -/
def attrTypeCode : DocAttribute → Int
  | .audio voice => if voice then 3 else 9
  | .video round_message => if round_message then 13 else 4
  | .sticker => 8
  | .animated => 10
  | .otherAttr => 5

/-- Spec wording: the numeric type code of a document — taken from
the first classifying attribute in list order, defaulting to 5 when
none exists. -/
def specFileType (attrs : List DocAttribute) : Int :=
  match attrs.find? isClassifyingAttr with
  | some a => attrTypeCode a
  | none => 5

/-! ## Claims -/

/-- C1: For a `CallbackQuery` event the second `answer` call issues no
request (the model at the concrete initial state `_answered = False`),
but for an `InlineQuery` event the second `answer` call issues the
underlying `SetInlineBotResultsRequest` again: `_answered` is
initialised `False` and never assigned, so the guard at the top of
`InlineQuery.Event.answer` never fires. This exhibits the code
violating the claimed at-most-once behaviour on the inline side. -/
theorem inlineAnswer_second_call_issues_request :
    (CBEvent.answer ((CBEvent.answer false).1)).2 = false ∧
    (IQEvent.answer ((IQEvent.answer false []).1) []).1 = false ∧
    (IQEvent.answer ((IQEvent.answer false []).1) []).2 = some [] := by
  refine ⟨rfl, rfl, rfl⟩

/-- C6: For every `CallbackQuery` event, if the event originated from
an inline-mode message (`via_inline` is true) then `delete` raises the
unsupported-operation `TypeError` and issues no delete request, and
otherwise `delete` issues the `delete_messages` request for the
triggering message (the query's message id). -/
theorem cbEvent_delete_spec (e : CBEvent) :
    (e.via_inline = true →
      e.delete.outcome =
        .raised "Inline messages cannot be deleted as there is no API request available to do so" ∧
      ∀ mid, e.delete.outcome ≠ .requested mid) ∧
    (e.via_inline = false →
      ∃ mid, e.query.msg_id = .intId mid ∧ e.delete.outcome = .requested mid) := by
  rcases e with ⟨q⟩
  rcases q with ⟨qid, uid, mid, ci, d⟩ | ⟨qid, uid, m, ci, d⟩
  · exact ⟨fun h => by simp [CBEvent.via_inline] at h,
      fun _ => ⟨mid, rfl, rfl⟩⟩
  · exact ⟨fun _ => ⟨rfl, fun mid h => by simp [CBEvent.delete, CBQuery.msg_id] at h⟩,
      fun h => by simp [CBEvent.via_inline] at h⟩

/-- Witness for C6: both sides of the dichotomy at concrete events. -/
theorem cbEvent_delete_spec_witness :
    (CBEvent.delete ⟨.botCallback 1 2 3 4 []⟩).outcome = .requested 3 ∧
    (CBEvent.delete ⟨.inlineBotCallback 1 2 (.id32 0 5 6) 4 []⟩).outcome =
      .raised "Inline messages cannot be deleted as there is no API request available to do so" := by
  refine ⟨?_, ?_⟩
  · obtain ⟨mid, hm, ho⟩ := (cbEvent_delete_spec ⟨.botCallback 1 2 3 4 []⟩).2 rfl
    cases hm
    exact ho
  · exact ((cbEvent_delete_spec ⟨.inlineBotCallback 1 2 (.id32 0 5 6) 4 []⟩).1 rfl).1

/-- C7: If `is_spam(id)` runs while no unexpired entry for `id` exists,
it returns false and inserts an entry expiring `spamTTL` (~0.6s) later;
a second call while that entry is unexpired returns true and leaves the
cache (hence the entry's expiry) untouched; and a call at or after the
expiry instant (with no intervening insertion) returns false again. -/
theorem is_spam_ttl (id : Int) (t t1 t2 : Rat) (c : TTLCache)
    (h0 : cacheGet c id t = 0) (h1 : t1 < t + spamTTL)
    (h2 : t + spamTTL ≤ t2) :
    (is_spam id t c).1 = false ∧
    (is_spam id t c).2.entries.headD (0, 0) = (id, t + spamTTL) ∧
    is_spam id t1 (is_spam id t c).2 = (true, (is_spam id t c).2) ∧
    (is_spam id t2 (is_spam id t c).2).1 = false := by
  have hcons : (cacheSet c id t).entries =
      (id, t + spamTTL) ::
        (c.entries.filter (fun e => e.1 != id && decide (t < e.2))).take 499 := rfl
  have hget1 : cacheGet (cacheSet c id t) id t1 = 1 := by
    simp [cacheGet, hcons, List.find?, h1]
  have hget2 : cacheGet (cacheSet c id t) id t2 = 0 := by
    have h2' : ¬ t2 < t + spamTTL := not_lt.mpr h2
    simp [cacheGet, hcons, List.find?, h2']
  refine ⟨by simp [is_spam, h0], by simp [is_spam, h0, hcons], ?_, ?_⟩
  · simp [is_spam, h0, hget1]
  · simp [is_spam, h0, hget2]

/-- Witness for C7: a concrete run — id 1, first call at time 0,
repeat at 0.5 (inside the window), repeat at 0.6 (expired). -/
theorem is_spam_ttl_witness :
    (is_spam 1 0 ⟨[]⟩).1 = false ∧
    (is_spam 1 0 ⟨[]⟩).2.entries.headD (0, 0) = (1, 0 + spamTTL) ∧
    is_spam 1 (1/2) (is_spam 1 0 ⟨[]⟩).2 = (true, (is_spam 1 0 ⟨[]⟩).2) ∧
    (is_spam 1 (3/5) (is_spam 1 0 ⟨[]⟩).2).1 = false :=
  is_spam_ttl 1 0 (1/2) (3/5) ⟨[]⟩ (by simp [cacheGet, List.find?])
    (by norm_num [spamTTL]) (by norm_num [spamTTL])

/-- C9: for every document input, `pack_bot_file_id` returns the
little-endian record (type code 32-bit, datacenter id 32-bit, file id
64-bit, access hash 64-bit, version byte 2) put through the
run-length-encoded url-safe base64 scheme, where the type code is read
off the first audio/video/sticker/animated attribute in list order
(via `specFileType`), defaulting to 5. -/
theorem pack_document_encoding (dc idv ah : Int) (attrs : List DocAttribute) :
    pack_bot_file_id (.document dc idv ah attrs) =
      some (encodeTelegramBase64 (rleEncode
        (leBytes 4 (specFileType attrs) ++ leBytes 4 dc ++ leBytes 8 idv ++
          leBytes 8 ah ++ leBytes 1 2))) := by
  have hloop : ∀ l : List DocAttribute, docFileTypeLoop 5 l = specFileType l := by
    intro l
    induction l with
    | nil => rfl
    | cons a rest ih =>
      cases a with
      | otherAttr =>
        simp only [docFileTypeLoop]
        rw [ih]
        simp [specFileType, List.find?, isClassifyingAttr]
      | audio voice =>
        simp [docFileTypeLoop, specFileType, List.find?, isClassifyingAttr, attrTypeCode]
      | video round_message =>
        simp [docFileTypeLoop, specFileType, List.find?, isClassifyingAttr, attrTypeCode]
      | sticker =>
        simp [docFileTypeLoop, specFileType, List.find?, isClassifyingAttr, attrTypeCode]
      | animated =>
        simp [docFileTypeLoop, specFileType, List.find?, isClassifyingAttr, attrTypeCode]
  simp [pack_bot_file_id, structPack_iiqqb, hloop]

/-- C8: `pack_bot_file_id` produces an identifier exactly for a
document or photo input (possibly wrapped in a media container), the
photo's size list containing a plain-size or cached-size variant; for
every other input it signals "not applicable" (`none`). -/
theorem pack_bot_file_id_applicable (f : TLObject) :
    (pack_bot_file_id f).isSome = packApplicable f := by
  have hphoto : ∀ (dc idv ah : Int) (sizes : List PhotoSizeVariant),
      (pack_bot_file_id (.photo dc idv ah sizes)).isSome = sizes.any isThumbOrCached := by
    intro dc idv ah sizes
    rcases h : sizes.reverse.find? isThumbOrCached with _ | s
    · have hany : sizes.any isThumbOrCached = false := by
        simp only [List.find?_eq_none, List.mem_reverse] at h
        simp only [List.any_eq_false]
        exact h
      simp [pack_bot_file_id, h, hany]
    · have hany : sizes.any isThumbOrCached = true :=
        List.any_eq_true.mpr ⟨s, List.mem_reverse.mp (List.mem_of_find?_eq_some h),
          List.find?_some h⟩
      simp [pack_bot_file_id, h, hany]
  cases f with
  | document dc idv ah attrs => rfl
  | photo dc idv ah sizes => exact hphoto dc idv ah sizes
  | messageMediaDocument d =>
    cases d with
    | document dc idv ah attrs => rfl
    | photo dc idv ah sizes => exact hphoto dc idv ah sizes
    | _ => rfl
  | messageMediaPhoto p =>
    cases p with
    | document dc idv ah attrs => rfl
    | photo dc idv ah sizes => exact hphoto dc idv ah sizes
    | _ => rfl
  | noneObj => rfl
  | otherObj => rfl

/-- C3: `NewMessage` construction fails exactly when `private=True`
together with `public=True`, or `incoming=False` together with
`outgoing=False`, was requested; and a successful construction
normalizes the direction flags — `incoming=True` alone yields
`outgoing=False`, and `outgoing=True` alone yields `incoming=False`. -/
theorem newMessage_init_flags (pattern : Option (String → Bool))
    (outgoing incoming : Option Bool) (func : Option (NMEvent → Bool))
    (private' public : Bool) :
    ((NewMessage.init pattern outgoing incoming func private' public
        matches Except.error _) =
      (private' && public ||
        (incoming == some false && outgoing == some false))) ∧
    NewMessage.init pattern none (some true) func false false =
      .ok ⟨false, func, pattern, some true, some false, false, false⟩ ∧
    NewMessage.init pattern (some true) none func false false =
      .ok ⟨false, func, pattern, some false, some true, false, false⟩ := by
  refine ⟨?_, rfl, rfl⟩
  cases private' <;> cases public <;>
    rcases incoming with _ | _ | _ <;> rcases outgoing with _ | _ | _ <;> rfl

/-- C10: `NewMessage(incoming=True, outgoing=True)` does not raise and
stores both direction flags as `None`; the filter of the resulting
builder (once resolved) ignores the message's `out` flag entirely, so
incoming and outgoing messages alike can pass. -/
theorem newMessage_both_directions (pattern : Option (String → Bool))
    (func : Option (NMEvent → Bool)) :
    NewMessage.init pattern (some true) (some true) func false false =
      .ok ⟨false, func, pattern, none, none, false, false⟩ ∧
    ∀ (m : Message) (u : Option String) (b : Bool) (now : Rat) (c : TTLCache),
      NewMessage.filter
          (NewMessageBuilder.resolve ⟨false, none, pattern, none, none, false, false⟩)
          ⟨{ m with out := b }, u⟩ now c =
        NewMessage.filter
          (NewMessageBuilder.resolve ⟨false, none, pattern, none, none, false, false⟩)
          ⟨m, u⟩ now c := by
  refine ⟨rfl, ?_⟩
  intro m u b now c
  cases m
  rfl

/-- C4 counterexample: the constructor removes the FIRST `'/'`
anywhere, not only a leading one — `Command("ab/cd")`, whose command
string has no leading slash, is stored as `"abcd"`, changed. -/
theorem command_interior_slash_changed :
    Command.init (.str "ab/cd") none none none false false =
      .ok ⟨false, none, ["abcd".toList], none, none, false, false⟩ ∧
    "abcd".toList ≠ "ab/cd".toList := by
  exact ⟨rfl, by decide⟩

/-- C4 (amended): the constructor removes the first occurrence of
`'/'` wherever it appears in the command string (so a leading slash is
stripped, and only that first occurrence); a string containing no
slash at all is stored unchanged; and `Command("/start")` and
`Command("start")` produce identical builders, hence configure the
same command set and accept exactly the same messages. -/
theorem command_init_amended :
    (∀ (s : String) (outgoing incoming : Option Bool)
        (func : Option (NMEvent → Bool)) (private' public : Bool)
        (b : CommandBuilder),
      Command.init (.str s) outgoing incoming func private' public = .ok b →
      b.command = [replaceSlashOnce s.toList]) ∧
    (∀ t : List Char, replaceSlashOnce ('/' :: t) = t) ∧
    (∀ l : List Char, '/' ∉ l → replaceSlashOnce l = l) ∧
    (∀ (outgoing incoming : Option Bool) (func : Option (NMEvent → Bool))
        (private' public : Bool),
      Command.init (.str "/start") outgoing incoming func private' public =
        Command.init (.str "start") outgoing incoming func private' public) := by
  refine ⟨?_, fun t => by simp [replaceSlashOnce], ?_, ?_⟩
  · intro s outgoing incoming func private' public b h
    unfold Command.init at h
    rcases hinit : NewMessage.init none outgoing incoming func private' public with e | nb
    · rw [hinit] at h; cases h
    · rw [hinit] at h
      cases h
      rfl
  · intro l hl
    induction l with
    | nil => rfl
    | cons c rest ih =>
      have hc : c ≠ '/' := fun h => hl (h ▸ List.mem_cons_self c rest)
      have hrest : '/' ∉ rest := fun h => hl (List.mem_cons_of_mem c h)
      simp [replaceSlashOnce, hc, ih hrest]
  · intro outgoing incoming func private' public
    unfold Command.init
    rcases hinit : NewMessage.init none outgoing incoming func private' public with e | nb
    · rfl
    · rfl

/-- Witness for C4's amended theorem at concrete inputs: the stored
command of `Command("/start")`, the leading-slash strip, and the
no-slash identity. -/
theorem command_init_amended_witness :
    (⟨false, none, ["start".toList], none, none, false, false⟩ :
        CommandBuilder).command = [replaceSlashOnce "/start".toList] ∧
    replaceSlashOnce ('/' :: "start".toList) = "start".toList ∧
    replaceSlashOnce "abc".toList = "abc".toList := by
  refine ⟨command_init_amended.1 "/start" none none none false false _ rfl,
    command_init_amended.2.1 "start".toList,
    command_init_amended.2.2.1 "abc".toList (by decide)⟩

/-- `bsplitSep` with a positive maxsplit starts with the segment
before the first separator occurrence. -/
theorem bsplitSep_head (s l : List Nat) (m : Nat) :
    ∃ rest, bsplitSep s (m + 1) l = segBeforeFirst s l :: rest := by
  unfold bsplitSep segBeforeFirst
  rcases findSub s l with _ | i
  · exact ⟨[], rfl⟩
  · exact ⟨_, rfl⟩

/-- C2 counterexample: with `data="manage"` and `split=("_", 0)` the
filter accepts payload `"manage_x"` even though it contains one
occurrence of `"_"`, not zero — the configured count 0 is falsy in
`if self.split_char_count and ...`, so the occurrence-count check is
skipped, refuting the claim's "for every n, including n = 0". -/
theorem cbq_split_count_zero_counterexample :
    (CallbackQuery.filter
        ((CallbackQuery.init (some (utf8 "manage")) (.pair (utf8 "_") 0) none).resolve)
        ⟨.botCallback 1 2 3 4 (utf8 "manage_x")⟩ 0 ⟨[]⟩).map Prod.fst = some true ∧
    bcount (utf8 "_") (utf8 "manage_x") = 1 ∧ (1 : Int) ≠ 0 := by
  refine ⟨by decide, by decide, by decide⟩

/-- C2 (amended): for a `CallbackQuery` builder with non-empty data
`d` — with no split configured, the filter accepts only when the
payload equals `d` exactly; with a non-empty separator `s` configured
(alone or in a `(s, n)` pair), it accepts only when the segment of the
payload before the first occurrence of `s` equals `d`; and with a pair
`(s, n)` where `n ≠ 0`, it accepts only when the payload contains
exactly `n` occurrences of `s`. (For `n = 0` the occurrence-count
requirement is not enforced: 0 is falsy, so the check is skipped.) -/
theorem cbq_filter_data_amended :
    (∀ (d : List Nat), d ≠ [] →
      ∀ (func : Option CBEventPred) (e : CBEvent) (now : Rat) (c : TTLCache),
      (CallbackQuery.filter ((CallbackQuery.init (some d) .noSplit func).resolve)
          e now c).map Prod.fst = some true →
      e.query.data = d) ∧
    (∀ (d s : List Nat), d ≠ [] → s ≠ [] →
      ∀ (func : Option CBEventPred) (e : CBEvent) (now : Rat) (c : TTLCache),
      (CallbackQuery.filter ((CallbackQuery.init (some d) (.sep s) func).resolve)
          e now c).map Prod.fst = some true →
      segBeforeFirst s e.query.data = d) ∧
    (∀ (d s : List Nat) (n : Int), d ≠ [] → s ≠ [] →
      ∀ (func : Option CBEventPred) (e : CBEvent) (now : Rat) (c : TTLCache),
      (CallbackQuery.filter ((CallbackQuery.init (some d) (.pair s n) func).resolve)
          e now c).map Prod.fst = some true →
      segBeforeFirst s e.query.data = d) ∧
    (∀ (d s : List Nat) (n : Int), d ≠ [] → s ≠ [] → n ≠ 0 →
      ∀ (func : Option CBEventPred) (e : CBEvent) (now : Rat) (c : TTLCache),
      (CallbackQuery.filter ((CallbackQuery.init (some d) (.pair s n) func).resolve)
          e now c).map Prod.fst = some true →
      (bcount s e.query.data : Int) = n) := by
  refine ⟨?_, ?_, ?_, ?_⟩
  · intro d hd func e now c h
    by_cases hdp : e.query.data = d
    · exact hdp
    · exfalso
      obtain ⟨d0, dtl, rfl⟩ := List.exists_cons_of_ne_nil hd
      have hbne : ((d0 :: dtl) != e.query.data) = true := by
        simp [bne_iff_ne]
        exact fun hh => hdp hh.symm
      simp [CallbackQuery.filter, CallbackQueryBuilder.resolve, CallbackQuery.init,
        truthyOptBytes, hbne] at h
  · intro d s hd hs func e now c h
    obtain ⟨d0, dtl, rfl⟩ := List.exists_cons_of_ne_nil hd
    obtain ⟨s0, stl, rfl⟩ := List.exists_cons_of_ne_nil hs
    obtain ⟨rest, hsplit⟩ := bsplitSep_head (s0 :: stl) e.query.data 1
    by_cases hbq : ((d0 :: dtl) == segBeforeFirst (s0 :: stl) e.query.data) = true
    · exact (eq_of_beq hbq).symm
    · exfalso
      rw [Bool.not_eq_true] at hbq
      simp [CallbackQuery.filter, CallbackQueryBuilder.resolve, CallbackQuery.init,
        truthyOptBytes, truthyOptInt, bsplitPy, hsplit, hbq] at h
  · intro d s n hd hs func e now c h
    obtain ⟨d0, dtl, rfl⟩ := List.exists_cons_of_ne_nil hd
    obtain ⟨s0, stl, rfl⟩ := List.exists_cons_of_ne_nil hs
    obtain ⟨rest, hsplit⟩ := bsplitSep_head (s0 :: stl) e.query.data 1
    by_cases hbq : ((d0 :: dtl) == segBeforeFirst (s0 :: stl) e.query.data) = true
    · exact (eq_of_beq hbq).symm
    · exfalso
      rw [Bool.not_eq_true] at hbq
      by_cases hn0 : n = 0
      · subst hn0
        simp [CallbackQuery.filter, CallbackQueryBuilder.resolve, CallbackQuery.init,
          truthyOptBytes, truthyOptInt, bsplitPy, hsplit, hbq] at h
      · by_cases hcnt : ((bcount (s0 :: stl) e.query.data : Int) != n) = true
        · simp [CallbackQuery.filter, CallbackQueryBuilder.resolve, CallbackQuery.init,
            truthyOptBytes, truthyOptInt, bcountPy, hn0, hcnt, hbq] at h
        · rw [Bool.not_eq_true] at hcnt
          simp [CallbackQuery.filter, CallbackQueryBuilder.resolve, CallbackQuery.init,
            truthyOptBytes, truthyOptInt, bcountPy, bsplitPy, hn0, hcnt, hsplit, hbq] at h
  · intro d s n hd hs hn func e now c h
    obtain ⟨d0, dtl, rfl⟩ := List.exists_cons_of_ne_nil hd
    obtain ⟨s0, stl, rfl⟩ := List.exists_cons_of_ne_nil hs
    by_cases hbq : ((bcount (s0 :: stl) e.query.data : Int) != n) = true
    · exfalso
      simp [CallbackQuery.filter, CallbackQueryBuilder.resolve, CallbackQuery.init,
        truthyOptBytes, truthyOptInt, bcountPy, hn, hbq] at h
    · rw [Bool.not_eq_true, bne_eq_false_iff_eq] at hbq
      exact hbq

/-- Witness for C2's amended theorem: concrete runs of the filter for
each shape — exact match on `"panel"`, separator `"/"` on
`"manage/one"`, and pair `("_", 2)` on `"manage_1_2"`. -/
theorem cbq_filter_data_amended_witness :
    (⟨.botCallback 1 2 3 4 (utf8 "panel")⟩ : CBEvent).query.data = utf8 "panel" ∧
    segBeforeFirst (utf8 "/")
      (⟨.botCallback 1 2 3 4 (utf8 "manage/one")⟩ : CBEvent).query.data = utf8 "manage" ∧
    segBeforeFirst (utf8 "_")
      (⟨.botCallback 1 2 3 4 (utf8 "manage_1_2")⟩ : CBEvent).query.data = utf8 "manage" ∧
    (bcount (utf8 "_")
      (⟨.botCallback 1 2 3 4 (utf8 "manage_1_2")⟩ : CBEvent).query.data : Int) = 2 := by
  refine ⟨cbq_filter_data_amended.1 (utf8 "panel") (by decide) none
      ⟨.botCallback 1 2 3 4 (utf8 "panel")⟩ 0 ⟨[]⟩ (by decide),
    cbq_filter_data_amended.2.1 (utf8 "manage") (utf8 "/") (by decide) (by decide) none
      ⟨.botCallback 1 2 3 4 (utf8 "manage/one")⟩ 0 ⟨[]⟩ (by decide),
    cbq_filter_data_amended.2.2.1 (utf8 "manage") (utf8 "_") 2 (by decide) (by decide) none
      ⟨.botCallback 1 2 3 4 (utf8 "manage_1_2")⟩ 0 ⟨[]⟩ (by decide),
    cbq_filter_data_amended.2.2.2 (utf8 "manage") (utf8 "_") 2 (by decide) (by decide)
      (by decide) none
      ⟨.botCallback 1 2 3 4 (utf8 "manage_1_2")⟩ 0 ⟨[]⟩ (by decide)⟩

/-- C5: `Command.filter` accepts only messages whose first entity is a
bot-command entity at offset 0; on such a message the command token
(the entity's span with the leading `/` dropped) split on `'@'` must
have its bare command in the configured command set, and a present
username suffix must equal the bot's own username. Concretely,
`/start@otherbot` is rejected by every builder whenever the bot's
username is not `otherbot`, while `/start` is accepted by a resolved
default `Command("start")` builder regardless of username. -/
theorem command_filter_spec :
    (∀ (b : CommandBuilder) (e : NMEvent) (now : Rat) (c : TTLCache),
      (Command.filter b e now c).1 = true →
      ∃ len rest, e.message.entities = .botCommand 0 len :: rest) ∧
    (∀ (b : CommandBuilder) (e : NMEvent) (now : Rat) (c : TTLCache),
      (Command.filter b e now c).1 = true →
      ∀ (len : Nat) (rest : List MessageEntity),
      e.message.entities = .botCommand 0 len :: rest →
      (splitChar '@' (pySlice e.message.message.toList 1 len)).headD [] ∈ b.command ∧
      ((splitChar '@' (pySlice e.message.message.toList 1 len)).drop 1 ≠ [] →
        e.me_username = some (String.mk
          (((splitChar '@' (pySlice e.message.message.toList 1 len)).drop 1).headD [])))) ∧
    (∀ (out ip ig ich : Bool) (sid : Int) (u : Option String)
        (b : CommandBuilder) (now : Rat) (c : TTLCache),
      u ≠ some "otherbot" →
      (Command.filter b ⟨⟨out, ip, ig, ich, "/start@otherbot", sid,
          [.botCommand 0 15]⟩, u⟩ now c).1 = false) ∧
    (∀ (out ip ig ich : Bool) (sid : Int) (u : Option String) (now : Rat)
        (b : CommandBuilder),
      Command.init (.str "start") none none none false false = .ok b →
      (Command.filter b.resolve ⟨⟨out, ip, ig, ich, "/start", sid,
          [.botCommand 0 6]⟩, u⟩ now ⟨[]⟩).1 = true) := by
  have ha : ∀ (b : CommandBuilder) (e : NMEvent) (now : Rat) (c : TTLCache),
      (Command.filter b e now c).1 = true →
      ∃ len rest, e.message.entities = .botCommand 0 len :: rest := by
    intro b e now c h
    rcases hents : e.message.entities with _ | ⟨ent, rest⟩
    · exfalso
      unfold Command.filter at h
      rw [hents] at h
      repeat split at h
      all_goals simp_all
    · cases ent with
      | other o l =>
        exfalso
        unfold Command.filter at h
        rw [hents] at h
        repeat split at h
        all_goals simp_all [MessageEntity.isBotCommand]
      | botCommand o l =>
        by_cases ho : o = 0
        · subst ho
          exact ⟨l, rest, rfl⟩
        · exfalso
          unfold Command.filter at h
          rw [hents] at h
          repeat split at h
          all_goals simp_all [MessageEntity.isBotCommand, MessageEntity.offset]
  have hb : ∀ (b : CommandBuilder) (e : NMEvent) (now : Rat) (c : TTLCache),
      (Command.filter b e now c).1 = true →
      ∀ (len : Nat) (rest : List MessageEntity),
      e.message.entities = .botCommand 0 len :: rest →
      (splitChar '@' (pySlice e.message.message.toList 1 len)).headD [] ∈ b.command ∧
      ((splitChar '@' (pySlice e.message.message.toList 1 len)).drop 1 ≠ [] →
        e.me_username = some (String.mk
          (((splitChar '@' (pySlice e.message.message.toList 1 len)).drop 1).headD []))) := by
    intro b e now c h len rest hents
    unfold Command.filter at h
    rw [hents] at h
    iterate 10
      try split at h
      all_goals try simp_all [MessageEntity.isBotCommand, MessageEntity.offset,
        MessageEntity.length]
  refine ⟨ha, hb, ?_, ?_⟩
  · intro out ip ig ich sid u b now c hu
    cases hv : (Command.filter b ⟨⟨out, ip, ig, ich, "/start@otherbot", sid,
        [.botCommand 0 15]⟩, u⟩ now c).1
    · rfl
    · exfalso
      have hparts := (hb b _ now c hv 15 [] rfl).2
      have hdrop : (splitChar '@' (pySlice
          ("/start@otherbot" : String).toList 1 15)).drop 1 = ["otherbot".toList] := by
        decide
      rw [hdrop] at hparts
      exact hu (hparts (by decide))
  · intro out ip ig ich sid u now b hinit
    have hb' : b = ⟨false, none, ["start".toList], none, none, false, false⟩ := by
      cases hinit
      rfl
    subst hb'
    rfl

/-- Witness for C5 at concrete inputs: the `/start@otherbot` rejection
with username `mybot`, and the `/start` acceptance through the default
`Command("start")` builder. -/
theorem command_filter_spec_witness :
    (Command.filter (⟨false, none, ["start".toList], none, none, false,
        false⟩ : CommandBuilder) ⟨⟨false, true, false, false, "/start@otherbot", 7,
        [.botCommand 0 15]⟩, some "mybot"⟩ 0 ⟨[]⟩).1 = false ∧
    (Command.filter (CommandBuilder.resolve ⟨false, none, ["start".toList], none, none,
        false, false⟩) ⟨⟨false, true, false, false, "/start", 7,
        [.botCommand 0 6]⟩, some "mybot"⟩ 0 ⟨[]⟩).1 = true := by
  refine ⟨command_filter_spec.2.2.1 false true false false 7 (some "mybot") _ 0 ⟨[]⟩
      (by decide), ?_⟩
  exact command_filter_spec.2.2.2 false true false false 7 (some "mybot") 0 _ rfl
